import Mathlib

/-!
# UserStack front end: the `ErrorPage` component

A shallow embedding of `Front-End/src/pages/ErrorPage/ErrorPage.jsx`.

* A React element tree is the inductive type `VNode`.  Only the two props the
  component sets (`className`, `onClick`) are represented.
* Rendering and event handlers are computations in `StateM σ`, where `σ` is the
  state of the world outside the component.  A component that called
  `navigate` while rendering would change that state, so "rendering requests no
  navigation" is a statement that can fail in this model.
* The navigation capability is modelled, as a test double would, by a log of the
  requested paths (`NavLog`, `logNavigate`).
-/

namespace UserStack

/-! ## View trees -/

/-- A node of a rendered view tree: a text node, or a host element with its tag,
its `className` prop, its `onClick` prop and its children in source order.
An `onClick` handler is a thunk: building it runs nothing. -/
inductive VNode (σ : Type) : Type where
  | text (value : String) : VNode σ
  | elem (tag : String) (className : Option String)
      (onClick : Option (Unit → StateM σ Unit)) (children : List (VNode σ)) : VNode σ

/-- Tag of an element; text nodes have none. -/
def VNode.tag? {σ : Type} : VNode σ → Option String
  | .text _ => none
  | .elem t _ _ _ => some t

/-- Value of the `className` prop, when the node is an element that sets it. -/
def VNode.className? {σ : Type} : VNode σ → Option String
  | .text _ => none
  | .elem _ c _ _ => c

/-- Value of the `onClick` prop, when the node is an element that sets it. -/
def VNode.onClick? {σ : Type} : VNode σ → Option (Unit → StateM σ Unit)
  | .text _ => none
  | .elem _ _ h _ => h

/-- Direct children of a node, in source order. -/
def VNode.children {σ : Type} : VNode σ → List (VNode σ)
  | .text _ => []
  | .elem _ _ _ cs => cs

/-- Whether the node is an element (as opposed to a text node). -/
def VNode.isElement {σ : Type} : VNode σ → Bool
  | .text _ => false
  | .elem _ _ _ _ => true

/-- Whether the node carries an activation (`onClick`) handler. -/
def VNode.hasOnClick {σ : Type} (n : VNode σ) : Bool :=
  n.onClick?.isSome

mutual
/-- The node and all its descendants, in document (pre-)order. -/
def VNode.nodes {σ : Type} : VNode σ → List (VNode σ)
  | .text s => [.text s]
  | .elem t c h cs => .elem t c h cs :: VNode.nodesList cs
/-- Document-order traversal of a list of sibling nodes. -/
def VNode.nodesList {σ : Type} : List (VNode σ) → List (VNode σ)
  | [] => []
  | n :: ns => VNode.nodes n ++ VNode.nodesList ns
end

mutual
/-- The DOM `textContent` of a node: the concatenation of the text nodes below
it, in document order. -/
def VNode.textContent {σ : Type} : VNode σ → String
  | .text s => s
  | .elem _ _ _ cs => VNode.textContentList cs
/-- Concatenated `textContent` of a list of sibling nodes. -/
def VNode.textContentList {σ : Type} : List (VNode σ) → String
  | [] => ""
  | n :: ns => VNode.textContent n ++ VNode.textContentList ns
end

/-- The elements of the tree (the root included), in document order. -/
def VNode.elements {σ : Type} (n : VNode σ) : List (VNode σ) :=
  n.nodes.filter VNode.isElement

/-- The elements of the tree that have the given tag, in document order. -/
def getElementsByTagName {σ : Type} (tag : String) (n : VNode σ) : List (VNode σ) :=
  n.nodes.filter (fun m => m.tag? == some tag)

/-- The values of all `className` props in the tree, in document order. -/
def VNode.classNames {σ : Type} (n : VNode σ) : List String :=
  n.nodes.filterMap VNode.className?

/-! ## Events -/

/-- Activating a node runs its `onClick` handler when it has one, and does
nothing otherwise. -/
def click {σ : Type} (n : VNode σ) : StateM σ Unit :=
  match n.onClick? with
  | some handler => handler ()
  | none => pure ()

/-- Activating a node `k` times in sequence. -/
def clicks {σ : Type} (n : VNode σ) : Nat → StateM σ Unit
  | 0 => pure ()
  | k + 1 => do
      click n
      clicks n k

/-- The world after running an effect from the world `w`. -/
def fire {σ : Type} (m : StateM σ Unit) (w : σ) : σ :=
  (Id.run (m.run w)).2

/-! ## The component -/

/-- The router context a component is rendered in: it supplies the navigation
capability. -/
structure RouterContext (σ : Type) where
  navigate : String → StateM σ Unit

/-- Modelled from the spec: `useNavigate` of `react-router-dom` is an external
collaborator; the navigation capability is "a context-supplied function
reference with no lifecycle managed by this component".  The hook hands out the
function of the surrounding router context and does nothing else. -/
def useNavigate {σ : Type} (ctx : RouterContext σ) : StateM σ (String → StateM σ Unit) :=
  pure ctx.navigate

/-- The function `ErrorPage` of `ErrorPage.jsx`.  JSX text is the text after
the JSX whitespace rule: the button's three-line body is the single string
`Go Back to Home`. -/
def ErrorPage {σ : Type} (ctx : RouterContext σ) : StateM σ (VNode σ) := do
  let navigate ← useNavigate ctx
  return .elem "div" (some "error-container") none [
    .elem "div" (some "error-content") none [
      .elem "h1" (some "error-code") none [.text "404"],
      .elem "h2" (some "error-title") none [.text "Page Not Found"],
      .elem "p" (some "error-message") none
        [.text "Sorry, the page you're looking for doesn't exist."],
      .elem "button" (some "error-button") (some (fun () => navigate "/"))
        [.text "Go Back to Home"]
    ]
  ]

/-- One render of the component in the world `w`: the returned view tree and
the world after the render. -/
def render {σ : Type} (ctx : RouterContext σ) (w : σ) : VNode σ × σ :=
  Id.run ((ErrorPage ctx).run w)

/-! ## The navigation capability as a log -/

/-- The log of the paths navigation was requested to, oldest first. -/
abbrev NavLog := List String

/-- A navigation capability that records each request at the end of the log. -/
def logNavigate (path : String) : StateM NavLog Unit :=
  modify (fun log => log ++ [path])

/-- The router context whose navigation capability is `logNavigate`. -/
def logRouter : RouterContext NavLog :=
  ⟨logNavigate⟩

/-! ## Helper lemmas -/

/-- Activating, `k` times, an element whose handler requests navigation to
`path` appends `k` copies of `path` to the log. -/
theorem fire_clicks_logNavigate (tag : String) (cls : Option String) (path : String)
    (cs : List (VNode NavLog)) (k : Nat) (log : NavLog) :
    fire (clicks (.elem tag cls (some (fun () => logNavigate path)) cs) k) log
      = log ++ List.replicate k path := by
  induction k generalizing log with
  | zero => simp [clicks, fire, StateT.run, Id.run, pure, StateT.pure]
  | succ k ih =>
    have step : fire (clicks (.elem tag cls (some (fun () => logNavigate path)) cs) (k + 1)) log
        = fire (clicks (.elem tag cls (some (fun () => logNavigate path)) cs) k)
            (log ++ [path]) := rfl
    rw [step, ih, List.replicate_succ, List.append_assoc, List.singleton_append]

/-! ## Theorems -/

/-- C1: with navigation modelled as a log, the tree rendered by `ErrorPage` (in
any world `w`) has exactly one button, and one activation of it, from any log,
appends exactly one request, whose argument is the string "/". -/
theorem ErrorPage_click_requests_home_once (w log : NavLog) :
    ∃ b, getElementsByTagName "button" (render logRouter w).1 = [b] ∧
      fire (click b) log = log ++ ["/"] :=
  ⟨_, rfl, rfl⟩

/-- C2: activating the rendered button `n` times in sequence appends exactly `n`
requests to the log, each with argument "/": one navigation call per
activation, none dropped and none merged. -/
theorem ErrorPage_clicks_request_home_each_time (w : NavLog) :
    ∃ b, getElementsByTagName "button" (render logRouter w).1 = [b] ∧
      ∀ (n : Nat) (log : NavLog), fire (clicks b n) log = log ++ List.replicate n "/" :=
  ⟨_, rfl, fun n log => fire_clicks_logNavigate _ _ _ _ n log⟩

/-- C3: the rendered tree has exactly one button element, labelled
"Go Back to Home", and the only node of the tree that carries an activation
handler is that button. -/
theorem ErrorPage_one_actionable_control {σ : Type} (ctx : RouterContext σ) (w : σ) :
    (getElementsByTagName "button" (render ctx w).1).map VNode.textContent
        = ["Go Back to Home"] ∧
      ((render ctx w).1.nodes.filter VNode.hasOnClick).map
          (fun n => (n.tag?, n.textContent))
        = [(some "button", "Go Back to Home")] :=
  ⟨rfl, rfl⟩

/-- C4: the rendered tree has exactly one `h1` element and its text is "404". -/
theorem ErrorPage_one_heading {σ : Type} (ctx : RouterContext σ) (w : σ) :
    (getElementsByTagName "h1" (render ctx w).1).map VNode.textContent = ["404"] :=
  rfl

/-- C5: the rendered tree has exactly one `h2` element and its text is
"Page Not Found". -/
theorem ErrorPage_one_subheading {σ : Type} (ctx : RouterContext σ) (w : σ) :
    (getElementsByTagName "h2" (render ctx w).1).map VNode.textContent
      = ["Page Not Found"] :=
  rfl

/-- C6: the rendered tree has exactly one `p` element, and the text of that
paragraph contains the substring "doesn't exist" (some text, then the
substring, then some text). -/
theorem ErrorPage_one_paragraph {σ : Type} (ctx : RouterContext σ) (w : σ) :
    ∃ pre post : String,
      (getElementsByTagName "p" (render ctx w).1).map VNode.textContent
        = [pre ++ "doesn't exist" ++ post] :=
  ⟨"Sorry, the page you're looking for ", ".", by
    rw [show ("Sorry, the page you're looking for " ++ "doesn't exist" ++ "." : String)
      = "Sorry, the page you're looking for doesn't exist." from by decide]
    rfl⟩

/-- C7: two independent renders, in any two worlds `w₁` and `w₂`, under the
same navigation capability return the same view tree, and in both the button's
handler is the request to navigate to "/". -/
theorem ErrorPage_render_pure {σ : Type} (ctx : RouterContext σ) (w₁ w₂ : σ) :
    (render ctx w₁).1 = (render ctx w₂).1 ∧
      (getElementsByTagName "button" (render ctx w₁).1).map click = [ctx.navigate "/"] ∧
      (getElementsByTagName "button" (render ctx w₂).1).map click = [ctx.navigate "/"] :=
  ⟨rfl, rfl, rfl⟩

/-- C8, as stated, fails: the content of the root container is not the four
listed elements and nothing else.  The root's only child is a second container,
so neither the root's children nor the elements below the root are heading,
subheading, paragraph, control. -/
theorem ErrorPage_root_content_not_only_four :
    (render logRouter []).1.children.map VNode.tag?
        ≠ [some "h1", some "h2", some "p", some "button"] ∧
      (render logRouter []).1.elements.tail.map VNode.tag?
        ≠ [some "h1", some "h2", some "p", some "button"] := by
  decide

/-- C8, amended: the rendered tree is a single root `div` of class
`error-container` whose only child is an inner `div` of class `error-content`;
the children of that inner container are, in this order, the heading "404",
the subheading "Page Not Found", the paragraph with the fixed sentence and the
button "Go Back to Home"; the tree holds nothing else (its nodes in document
order are the two containers and the four elements, each followed by its text
node). -/
theorem ErrorPage_tree_shape {σ : Type} (ctx : RouterContext σ) (w : σ) :
    (render ctx w).1.tag? = some "div" ∧
      (render ctx w).1.className? = some "error-container" ∧
      (∃ inner, (render ctx w).1.children = [inner] ∧ inner.tag? = some "div" ∧
        inner.className? = some "error-content" ∧
        inner.children.map (fun n => (n.tag?, n.textContent))
          = [(some "h1", "404"), (some "h2", "Page Not Found"),
             (some "p", "Sorry, the page you're looking for doesn't exist."),
             (some "button", "Go Back to Home")]) ∧
      (render ctx w).1.nodes.map VNode.tag?
        = [some "div", some "div", some "h1", none, some "h2", none,
           some "p", none, some "button", none] :=
  ⟨rfl, rfl, ⟨_, rfl, rfl, rfl, rfl⟩, rfl⟩

/-- C9: the elements of the rendered tree, in document order, are the outer
`div`, the inner `div`, `h1`, `h2`, `p` and `button`, with the classes
`error-container`, `error-content`, `error-code`, `error-title`,
`error-message` and `error-button` respectively; these six are all the class
names in the tree, each occurs once, and each prop value is a single class
name (it has no blank). -/
theorem ErrorPage_class_names {σ : Type} (ctx : RouterContext σ) (w : σ) :
    (render ctx w).1.elements.map (fun n => (n.tag?, n.className?))
        = [(some "div", some "error-container"), (some "div", some "error-content"),
           (some "h1", some "error-code"), (some "h2", some "error-title"),
           (some "p", some "error-message"), (some "button", some "error-button")] ∧
      (render ctx w).1.classNames
        = ["error-container", "error-content", "error-code", "error-title",
           "error-message", "error-button"] ∧
      (render ctx w).1.classNames.Nodup ∧
      (render ctx w).1.classNames.all (fun c => !c.toList.contains ' ') = true :=
  have names : (render ctx w).1.classNames
      = ["error-container", "error-content", "error-code", "error-title",
         "error-message", "error-button"] := rfl
  ⟨rfl, names, by rw [names]; decide, by rw [names]; decide⟩

/-- C10: a render leaves the navigation log as it was, also when followed by
zero activations of the button; of all the nodes of the rendered tree, only the
button changes the log when activated, and it appends "/". -/
theorem ErrorPage_render_requests_nothing (log : NavLog) :
    (render logRouter log).2 = log ∧
      (∃ b, getElementsByTagName "button" (render logRouter log).1 = [b] ∧
        fire (clicks b 0) (render logRouter log).2 = log) ∧
      (render logRouter log).1.nodes.map (fun n => (n.tag?, fire (click n) log))
        = [(some "div", log), (some "div", log), (some "h1", log), (none, log),
           (some "h2", log), (none, log), (some "p", log), (none, log),
           (some "button", log ++ ["/"]), (none, log)] :=
  ⟨rfl, ⟨_, rfl, rfl⟩, rfl⟩

end UserStack
